import Mathlib

set_option autoImplicit false

namespace Bridge

/-! Shallow embedding of the acquisition-to-register bridge implemented in
`ds18b20_modbus.py` and `weather_modbus.py`.

External effects are made explicit: the 1-Wire sysfs provider becomes a
function from call index to an optional list of raw text lines, the Modbus
serial transport becomes a behaviour record saying whether connecting and
writing succeed, and the weather HTTP endpoint becomes a response value.
Python machine floats are modelled as exact rationals; Python exceptions are
modelled with `Except` over an explicit exception type. -/

/-- Python exception classes that can arise in the modelled code paths. -/
inductive PyExc where
  | valueError
  | typeError
  | keyError
  | indexError
  | ioError
  | requestException
deriving DecidableEq

/-- Whitespace characters stripped by Python `str.strip()` and `float()`. -/
def isSpaceChar (c : Char) : Bool :=
  c == ' ' || c == '\t' || c == '\n' || c == '\r' || c == '\x0b' || c == '\x0c'

/-- Decimal digit test, by code point (48 = '0', 57 = '9'). -/
def isDigitChar (c : Char) : Bool :=
  48 ≤ c.toNat && c.toNat ≤ 57

/-- Numeric value of a decimal digit character. -/
def digitToNat (c : Char) : Nat := c.toNat - 48

/-- Value of a list of decimal digit characters, most significant first. -/
def digitsVal (ds : List Char) : Nat :=
  ds.foldl (fun a c => a * 10 + digitToNat c) 0

/-- Python `str.strip()` on a list of characters: drop leading and trailing
whitespace. -/
def stripChars (s : List Char) : List Char :=
  ((s.dropWhile isSpaceChar).reverse.dropWhile isSpaceChar).reverse

/-- Python slice `s[-3:]`: the last three characters (the whole string when
it is shorter). Used for the CRC marker check in `ds18b20_modbus.py:50`. -/
def takeLast3 (s : List Char) : List Char := s.drop (s.length - 3)

/-- Python `str.find(pat)`: index of the first occurrence of `pat`, `none`
standing for the sentinel `-1`. Used in `ds18b20_modbus.py:57`. -/
def findSub (pat : List Char) : List Char → Option Nat
  | [] => if pat = [] then some 0 else none
  | c :: rest =>
    if pat.isPrefixOf (c :: rest) then some 0
    else (findSub pat rest).map (· + 1)

/-- Longest prefix of decimal digits together with the remainder. -/
def spanDigits : List Char → List Char × List Char
  | [] => ([], [])
  | c :: cs =>
    if isDigitChar c then
      let p := spanDigits cs
      (c :: p.1, p.2)
    else ([], c :: cs)

/-- Exponent part of a Python float literal: an optional sign followed by a
nonempty run of digits consuming the whole remainder. -/
def pyExpPart (sg mant : ℚ) (r : List Char) : Option ℚ :=
  let es : ℤ × List Char :=
    match r with
    | [] => (1, [])
    | c :: t => if c = '-' then (-1, t) else if c = '+' then (1, t) else (1, c :: t)
  let ed := spanDigits es.2
  if ed.1 = [] ∨ ed.2 ≠ [] then none
  else some (sg * mant * (10 : ℚ) ^ (es.1 * (digitsVal ed.1 : ℤ)))

/-- Optional leading sign of a float literal: the sign factor and the
remaining characters. -/
def parseSign : List Char → ℚ × List Char
  | [] => (1, [])
  | c :: r => if c = '-' then (-1, r) else if c = '+' then (1, r) else (1, c :: r)

/-- Optional fractional part of a float literal: its digits and the
remaining characters. -/
def parseFrac (r : List Char) : List Char × List Char :=
  match r with
  | '.' :: r2 => spanDigits r2
  | r2 => ([], r2)

/-- Models the Python builtin `float()` on an already-stripped string over
the decimal/exponent literal grammar: optional sign, digits with an optional
fractional part (at least one digit overall), optional exponent. Inputs
outside this grammar (for this program: anything the 1-Wire driver or the
weather API could emit that is not a decimal literal) yield `none`, which
stands for `ValueError`. -/
def pyFloatCore (s : List Char) : Option ℚ :=
  let sg := parseSign s
  let ip := spanDigits sg.2
  let fp := parseFrac ip.2
  if ip.1 = [] ∧ fp.1 = [] then none
  else
    let mant : ℚ := (digitsVal ip.1 : ℚ) + (digitsVal fp.1 : ℚ) / (10 : ℚ) ^ fp.1.length
    match fp.2 with
    | [] => some (sg.1 * mant)
    | 'e' :: r => pyExpPart sg.1 mant r
    | 'E' :: r => pyExpPart sg.1 mant r
    | _ => none

/-- Python `float(s)`: strip whitespace, then parse the literal. -/
def pyFloat (s : List Char) : Option ℚ := pyFloatCore (stripChars s)

/-- Python `int()` on a float value: truncation toward zero. -/
def pyInt (q : ℚ) : ℤ := if 0 ≤ q then ⌊q⌋ else ⌈q⌉

/-- Interpretation of an integer as a two's-complement signed 16-bit value,
as the spec's wire contract `int16(...)` prescribes. -/
def toInt16 (v : ℤ) : ℤ := (v + 32768) % 65536 - 32768

/-- A 1-Wire sensor identifier (a sysfs folder name such as `28-000005e2fdc3`). -/
abbrev SensorId := String

/-- The raw lines returned by one `read_temp_raw` call (`ds18b20_modbus.py:31`);
the provider returns `none` when opening or reading `w1_slave` fails. -/
abbrev RawLines := List (List Char)

/-- The CRC success marker compared against in `ds18b20_modbus.py:50`. -/
def yesChars : List Char := ['Y', 'E', 'S']

/-- The temperature field marker searched for in `ds18b20_modbus.py:57`. -/
def tEqChars : List Char := ['t', '=']

/-- The two possible normal return values of `DS18B20.read_temp`: the Python
code returns the 2-tuple `(None, None)` on its failure paths
(`ds18b20_modbus.py:47,54,59`) and a bare float on success
(`ds18b20_modbus.py:65`). -/
inductive ReadTempRet where
  | nonePair
  | temp (q : ℚ)
deriving DecidableEq

/-- Python `x is None` applied to a `read_temp` result: both a 2-tuple and a
float are distinct objects from `None`, so this is always `false`. This is
the filter used by `get_all_temperatures` (`ds18b20_modbus.py:74`). -/
def retIsNone : ReadTempRet → Bool := fun _ => false

/-- Outcome of the CRC retry loop of `ds18b20_modbus.py:50-54`: either the raw
read failed during a re-read (the loop's `return None, None`), or some read
produced lines whose first line carries the marker. `rereads` counts the
`read_temp_raw` calls made after the initial one. -/
inductive LoopExit where
  | absent (rereads : Nat)
  | validated (lines : RawLines) (rereads : Nat)

/-- The `while` loop of `ds18b20_modbus.py:50-54`, with explicit fuel (`none`
means the budget was exhausted before the loop exited). `n` is the index of
the next provider call; `lines[0]` on an empty re-read raises `IndexError`
exactly as in Python. -/
def rtLoop (raw : Nat → Option RawLines) : Nat → Nat → RawLines → Option (Except PyExc LoopExit)
  | 0, _, _ => none
  | fuel + 1, n, lines =>
    match lines with
    | [] => some (.error .indexError)
    | l0 :: _ =>
      if takeLast3 (stripChars l0) = yesChars then
        some (.ok (.validated lines (n - 1)))
      else
        match raw n with
        | none => some (.ok (.absent n))
        | some lines2 => rtLoop raw fuel (n + 1) lines2

/-- `DS18B20.read_temp` (`ds18b20_modbus.py:42-65`) over a provider `raw`
giving the result of the `k`-th `read_temp_raw` call. Returns the Python
result paired with the number of re-reads performed; `none` means the retry
budget `fuel` was exhausted. -/
def read_temp (raw : Nat → Option RawLines) (fuel : Nat) :
    Option (Except PyExc (ReadTempRet × Nat)) :=
  match raw 0 with
  | none => some (.ok (.nonePair, 0))
  | some lines =>
    if lines.length < 2 then some (.ok (.nonePair, 0))
    else
      match rtLoop raw fuel 1 lines with
      | none => none
      | some (.error e) => some (.error e)
      | some (.ok (.absent k)) => some (.ok (.nonePair, k))
      | some (.ok (.validated ls k)) =>
        match ls.get? 1 with
        | none => some (.error .indexError)
        | some l1 =>
          match findSub tEqChars l1 with
          | none => some (.ok (.nonePair, k))
          | some pos =>
            match pyFloat (l1.drop (pos + 2)) with
            | none => some (.error .valueError)
            | some q => some (.ok (.temp (q / 1000), k))

/-- `DS18B20.get_all_temperatures` (`ds18b20_modbus.py:67-77`) over the list
of discovered sensors, in discovery order. The `if temp_c is not None`
filter keeps every entry, because `read_temp` never returns `None` itself. -/
def get_all_temperatures (raw : SensorId → Nat → Option RawLines) (fuel : Nat) :
    List SensorId → Option (Except PyExc (List (SensorId × ReadTempRet)))
  | [] => some (.ok [])
  | sid :: rest =>
    match read_temp (raw sid) fuel with
    | none => none
    | some (.error e) => some (.error e)
    | some (.ok (ret, _)) =>
      match get_all_temperatures raw fuel rest with
      | none => none
      | some (.error e) => some (.error e)
      | some (.ok tl) =>
        some (.ok (if retIsNone ret then tl else (sid, ret) :: tl))

/-- An open minimalmodbus `Instrument` handle; its internals are opaque to
the bridge, so it is modelled as a unit value. -/
abbrev Session := Unit

/-- Abstract behaviour of the serial transport for one `write_temperature`
call: whether constructing the `Instrument` succeeds and whether
`write_register` is accepted by the transport. -/
structure ModbusBehavior where
  connectOk : Bool
  writeOk : Bool
deriving DecidableEq

/-- Observable actions of the writer on its transport: a connection attempt
(`ModbusRTUWriter.connect`, `ds18b20_modbus.py:92-112`) and a single-register
write frame with its address, register value and Modbus function code
(`ds18b20_modbus.py:126`). -/
inductive Event where
  | connectAttempt (ok : Bool)
  | wireWrite (addr : ℤ) (value : ℤ) (fc : ℕ)
deriving DecidableEq

/-- `ModbusRTUWriter.connect` (`ds18b20_modbus.py:92-112`): on success the
writer holds an `Instrument`, on any exception it logs and sets
`self.instrument = None`. Returns the new `instrument` field and the emitted
events. -/
def connectW (beh : ModbusBehavior) : Option Session × List Event :=
  ((if beh.connectOk then some () else none), [.connectAttempt beh.connectOk])

/-- `ModbusRTUWriter.__init__` (`ds18b20_modbus.py:80-90`): stores the serial
configuration and immediately calls `self.connect()`. -/
def mkWriter (beh : ModbusBehavior) : Option Session × List Event :=
  connectW beh

/-- The second argument of a `write_temperature` call as it occurs in the
programs: either a float, or the 2-tuple `(None, None)` that
`get_all_temperatures` can propagate from a failed probe. -/
inductive TempArg where
  | tuple
  | num (q : ℚ)

/-- The `try` suite of `write_temperature` (`ds18b20_modbus.py:121-129`):
`int(temperature * 10)` raises `TypeError` on the tuple argument; otherwise
the quantized value is handed to `write_register` with function code 6,
which either succeeds or raises a transport error. The event list records
the frame handed to the transport. -/
def tryBody (beh : ModbusBehavior) (addr : ℤ) (t : TempArg) :
    Except PyExc Bool × List Event :=
  match t with
  | .tuple => (.error .typeError, [])
  | .num q =>
    let v := pyInt (q * 10)
    ((if beh.writeOk then .ok true else .error .ioError), [.wireWrite addr v 6])

/-- `ModbusRTUWriter.write_temperature` (`ds18b20_modbus.py:114-134`,
identical in `weather_modbus.py:73-93`): reconnect when `instrument` is
`None`, give up with `False` when that fails, then run the `try` suite; any
exception there is caught by `except Exception`, which logs, clears
`self.instrument` and returns `False`. The result is the returned boolean,
the new `instrument` field and the emitted events. -/
def write_temperature (beh : ModbusBehavior) (st : Option Session) (addr : ℤ)
    (t : TempArg) : Except PyExc (Bool × Option Session × List Event) :=
  let c := if st.isNone then connectW beh else (st, [])
  match c.1 with
  | none => .ok (false, none, c.2)
  | some s =>
    match tryBody beh addr t with
    | (.ok b, ev2) => .ok (b, some s, c.2 ++ ev2)
    | (.error _, ev2) => .ok (false, none, c.2 ++ ev2)

/-- A `read_temp` result as it is passed on to `write_temperature` by the
main loop of `ds18b20_modbus.py:194-197`. -/
def toTempArg : ReadTempRet → TempArg
  | .nonePair => .tuple
  | .temp q => .num q

/-- The f-string interpolation `{temp_c:.2f}` in the per-sensor status
prints of `ds18b20_modbus.py:200,202`: formatting a float succeeds, while
applying the float format spec to the 2-tuple `(None, None)` of a failed
probe raises `TypeError`. -/
def format2f : ReadTempRet → Except PyExc Unit
  | .nonePair => .error .typeError
  | .temp _ => .ok ()

/-- The per-tick write phase of `main` (`ds18b20_modbus.py:194-202`):
enumerate the sampled temperatures; for each index holding a register in
the register map attempt one write and then print the per-sensor status
line; indices beyond the map only print ("no register"). Both prints
interpolate `{temp_c:.2f}`, which raises `TypeError` on a failed probe's
tuple entry — in the register branch after the write for that index has
already happened. `behs i` is the transport behaviour seen by the write
for index `i`. -/
def sensorTickWrites (regs : List ℤ) (behs : Nat → ModbusBehavior) :
    Nat → Option Session → List (SensorId × ReadTempRet) →
    Except PyExc (Option Session × List Event)
  | _, st, [] => .ok (st, [])
  | i, st, (_, ret) :: rest =>
    match regs.get? i with
    | none =>
      match format2f ret with
      | .error e => .error e
      | .ok _ => sensorTickWrites regs behs (i + 1) st rest
    | some addr =>
      match write_temperature (behs i) st addr (toTempArg ret) with
      | .error e => .error e
      | .ok (_, st2, ev) =>
        match format2f ret with
        | .error e => .error e
        | .ok _ =>
          match sensorTickWrites regs behs (i + 1) st2 rest with
          | .error e => .error e
          | .ok (stf, evs) => .ok (stf, ev ++ evs)

/-- One tick of the sensor-bridge loop (`ds18b20_modbus.py:186-204`): sample
all sensors, then write each indexed reading to its mapped register. An
exception anywhere in the tick propagates, as nothing inside the `while`
catches it. `none` means the sampling retry budget was exhausted. -/
def sensorTick (sensors : List SensorId) (regs : List ℤ)
    (raw : SensorId → Nat → Option RawLines) (behs : Nat → ModbusBehavior)
    (fuel : Nat) (st : Option Session) :
    Option (Except PyExc (Option Session × List Event)) :=
  match get_all_temperatures raw fuel sensors with
  | none => none
  | some (.error e) => some (.error e)
  | some (.ok temps) => some (sensorTickWrites regs behs 0 st temps)

/-- Outcome of running the bridge loop for a bounded number of ticks. -/
inductive LoopOutcome where
  | running (st : Option Session)
  | errorExit (e : PyExc)
  | outOfFuel
deriving DecidableEq

/-- The `while True` loop of `main` (`ds18b20_modbus.py:185-211`) run for
`n` ticks, where tick `t` sees providers `envRaw t` and transport behaviours
`envBehs t`. The `try`/`except` of `ds18b20_modbus.py:185,209` wraps the
whole loop, so an exception escaping any tick ends the loop (and `main`
returns): this is `errorExit`. `running` means all `n` ticks completed. -/
def mainLoop (sensors : List SensorId) (regs : List ℤ)
    (envRaw : Nat → SensorId → Nat → Option RawLines)
    (envBehs : Nat → Nat → ModbusBehavior) (tickFuel : Nat) :
    Nat → Nat → Option Session → LoopOutcome
  | 0, _, st => .running st
  | n + 1, t, st =>
    match sensorTick sensors regs (envRaw t) (envBehs t) tickFuel st with
    | none => .outOfFuel
    | some (.error e) => .errorExit e
    | some (.ok (st2, _)) => mainLoop sensors regs envRaw envBehs tickFuel n (t + 1) st2

/-! Weather fetcher (`weather_modbus.py:11-36`). -/

/-- A JSON value as produced by `response.json()`. -/
inductive JVal where
  | null
  | bool (b : Bool)
  | num (q : ℚ)
  | str (s : List Char)
  | arr (xs : List JVal)
  | obj (kvs : List (List Char × JVal))

/-- Key lookup in a JSON object's field list. -/
def jLookup (k : List Char) : List (List Char × JVal) → Option JVal
  | [] => none
  | (k2, v) :: rest => if k2 = k then some v else jLookup k rest

/-- Python subscription `v[k]` with a string key: `KeyError` when a dict
lacks the key, `TypeError` on lists and strings (string indices must be
integers) and on scalars. -/
def pyIndexStr (v : JVal) (k : List Char) : Except PyExc JVal :=
  match v with
  | .obj kvs =>
    match jLookup k kvs with
    | some x => .ok x
    | none => .error .keyError
  | _ => .error .typeError

/-- Python subscription `v[i]` with an integer key: `IndexError` past the end
of a list or string, `KeyError` on a JSON dict (whose keys are strings), and
`TypeError` on scalars. -/
def pyIndexNat (v : JVal) (i : Nat) : Except PyExc JVal :=
  match v with
  | .arr xs =>
    match xs.get? i with
    | some x => .ok x
    | none => .error .indexError
  | .str s =>
    match s.get? i with
    | some c => .ok (.str [c])
    | none => .error .indexError
  | .obj _ => .error .keyError
  | _ => .error .typeError

/-- Python `float(v)` on a JSON value: numbers and booleans convert, strings
are parsed (`ValueError` on failure), everything else raises `TypeError`. -/
def pyFloatOfVal (v : JVal) : Except PyExc ℚ :=
  match v with
  | .num q => .ok q
  | .bool b => .ok (if b then 1 else 0)
  | .str s =>
    match pyFloat s with
    | some q => .ok q
    | none => .error .valueError
  | _ => .error .typeError

/-- Abstract behaviour of one `requests.get` call: the request itself fails
(any `RequestException`), or a response arrives with a status code and a
body that either is valid JSON or is not. -/
inductive HttpResult where
  | netFail
  | resp (status : Nat) (body : Option JVal)

/-- The JSON key `current_condition`. -/
def ccKey : List Char := "current_condition".data

/-- The JSON key `temp_C`. -/
def tcKey : List Char := "temp_C".data

/-- The expression `float(data['current_condition'][0]['temp_C'])` of
`weather_modbus.py:26`, with Python exception semantics. -/
def parseTempC (data : JVal) : Except PyExc ℚ :=
  match pyIndexStr data ccKey with
  | .error e => .error e
  | .ok v1 =>
    match pyIndexNat v1 0 with
    | .error e => .error e
    | .ok v2 =>
      match pyIndexStr v2 tcKey with
      | .error e => .error e
      | .ok v3 => pyFloatOfVal v3

/-- `WeatherFetcher.get_current_temperature` (`weather_modbus.py:16-36`):
`requests.get` failures and `raise_for_status` on a status of 400 or above
raise `RequestException`, caught by the first handler; a body that is not
valid JSON raises the `ValueError`-compatible JSON decode error, caught by
the second handler, which also catches `KeyError`, `ValueError` and
`TypeError` from the parse expression. Any other exception propagates. -/
def get_current_temperature (h : HttpResult) : Except PyExc (Option ℚ) :=
  match h with
  | .netFail => .ok none
  | .resp status body =>
    if 400 ≤ status then .ok none
    else
      match body with
      | none => .ok none
      | some data =>
        match parseTempC data with
        | .ok q => .ok (some q)
        | .error .requestException => .ok none
        | .error .keyError => .ok none
        | .error .valueError => .ok none
        | .error .typeError => .ok none
        | .error e => .error e

/-- Sign factor named by a sign-character prefix: `['-']` gives `-1`,
the empty prefix gives `1`. Statement helper for the parsed `t=` field. -/
def sgnVal (sgn : List Char) : ℚ := if sgn = ['-'] then -1 else 1

/-! Concrete fixtures used by witnesses and counterexamples. They follow the
two-line `w1_slave` format described by the spec for the 1-Wire driver. -/

/-- A first raw line whose CRC marker is the success marker. -/
def lineYes : List Char := "2c 00 4b 46 7f ff 0c 10 2c : crc=2c YES\n".data

/-- A first raw line whose CRC marker is not the success marker. -/
def lineNo : List Char := "2c 00 4b 46 7f ff 0c 10 2c : crc=2c NO\n".data

/-- A second raw line with the millidegree field `t=21562`. -/
def lineT21562 : List Char := "2c 00 4b 46 7f ff t=21562\n".data

/-- A second raw line with the millidegree field `t=-5000`. -/
def lineTNeg5000 : List Char := "2c 00 4b 46 7f ff t=-5000\n".data

/-- A second raw line whose `t=` field is not a numeric literal. -/
def lineTBad : List Char := "2c 00 4b 46 7f ff t=bad\n".data

/-- Identifier of the first fixture probe. -/
def probeA : SensorId := "28-000005e2fdc3"

/-- Identifier of the second fixture probe. -/
def probeB : SensorId := "28-0316a2f3b1ff"

/-- A provider whose raw read always fails (the `w1_slave` file is gone). -/
def failRaw : SensorId → Nat → Option RawLines := fun _ _ => none

/-- Providers for the end-to-end scenario: probe A reads 21.562 °C and any
other probe reads -5.0 °C, both with a valid CRC marker. -/
def scenarioRaw : SensorId → Nat → Option RawLines := fun sid _ =>
  if sid = probeA then some [lineYes, lineT21562] else some [lineYes, lineTNeg5000]

/-- A provider whose payload always has a valid marker but a malformed
`t=` field. -/
def badFieldRaw : SensorId → Nat → Option RawLines := fun _ _ =>
  some [lineYes, lineTBad]

/-- A transport on which connecting and writing always succeed. -/
def behOk : ModbusBehavior := ⟨true, true⟩

/-- A provider that yields markerless payloads for its first two calls and
fails on the third (a probe disconnected mid-conversion). -/
def flakyRaw : Nat → Option RawLines := fun n =>
  if n = 0 then some [lineNo, lineT21562]
  else if n = 1 then some [lineNo] else none

/-- A syntactically valid weather response body whose `current_condition`
array is empty. -/
def emptyConditionBody : JVal := .obj [(ccKey, .arr [])]

/-- The register map of `ds18b20_modbus.py:159-162`, as the list of register
addresses for logical sensor indices 0 and 1. -/
def sensorRegisters : List ℤ := [4096, 4097]

end Bridge

namespace Bridge

/-! Helper lemmas. -/

theorem digit_not_space {c : Char} (h : isDigitChar c = true) :
    isSpaceChar c = false := by
  cases hs : isSpaceChar c
  · rfl
  · exfalso
    have hs2 := hs
    simp only [isSpaceChar, Bool.or_eq_true, beq_iff_eq] at hs2
    rcases hs2 with ((((h1 | h1) | h1) | h1) | h1) | h1 <;> subst h1 <;>
      exact absurd h (by decide)

theorem digit_ne_dash {c : Char} (h : isDigitChar c = true) : ¬ c = '-' := by
  intro he; subst he; exact absurd h (by decide)

theorem digit_ne_plus {c : Char} (h : isDigitChar c = true) : ¬ c = '+' := by
  intro he; subst he; exact absurd h (by decide)

theorem dropWhile_all {p : Char → Bool} {l : List Char}
    (h : ∀ c ∈ l, p c = false) : l.dropWhile p = l := by
  cases l with
  | nil => rfl
  | cons c t => simp [List.dropWhile_cons, h c (List.mem_cons_self c t)]

theorem stripChars_sgn_digits (sgn ds : List Char) (hs : sgn = [] ∨ sgn = ['-'])
    (hne : ds ≠ []) (hd : ∀ c ∈ ds, isDigitChar c = true) :
    stripChars (sgn ++ ds ++ ['\n']) = sgn ++ ds := by
  have hnospace : ∀ c ∈ sgn ++ ds, isSpaceChar c = false := by
    intro c hc
    rcases List.mem_append.mp hc with hc1 | hc2
    · rcases hs with h | h <;> subst h
      · cases hc1
      · rw [List.mem_singleton] at hc1
        subst hc1
        decide
    · exact digit_not_space (hd c hc2)
  have hlead : ((sgn ++ ds) ++ ['\n']).dropWhile isSpaceChar = (sgn ++ ds) ++ ['\n'] := by
    rcases hs with h | h <;> subst h
    · cases ds with
      | nil => exact absurd rfl hne
      | cons d t =>
        simp only [List.nil_append, List.cons_append, List.dropWhile_cons]
        rw [digit_not_space (hd d (List.mem_cons_self d t))]
        simp
    · simp only [List.cons_append, List.dropWhile_cons]
      rw [show isSpaceChar '-' = false from by decide]
      simp
  have hrev : ((sgn ++ ds) ++ ['\n']).reverse = '\n' :: (sgn ++ ds).reverse := by
    simp
  have htrail : ('\n' :: (sgn ++ ds).reverse).dropWhile isSpaceChar
      = (sgn ++ ds).reverse := by
    rw [List.dropWhile_cons]
    have : isSpaceChar '\n' = true := by decide
    rw [this]
    simp only [if_true]
    exact dropWhile_all (by
      intro c hc
      exact hnospace c (List.mem_reverse.mp hc))
  unfold stripChars
  rw [show sgn ++ ds ++ ['\n'] = (sgn ++ ds) ++ ['\n'] from by simp, hlead, hrev,
    htrail, List.reverse_reverse]

theorem spanDigits_all {ds : List Char} (hd : ∀ c ∈ ds, isDigitChar c = true) :
    spanDigits ds = (ds, []) := by
  induction ds with
  | nil => rfl
  | cons d t ih =>
    have := hd d (List.mem_cons_self d t)
    simp [spanDigits, this, ih fun c hc => hd c (List.mem_cons_of_mem d hc)]

theorem parseSign_digit {d : Char} (t : List Char) (hd0 : isDigitChar d = true) :
    parseSign (d :: t) = (1, d :: t) := by
  simp only [parseSign]
  rw [if_neg (digit_ne_dash hd0), if_neg (digit_ne_plus hd0)]

theorem parseSign_dash (r : List Char) : parseSign ('-' :: r) = (-1, r) := by
  simp [parseSign]

theorem parseFrac_nil : parseFrac [] = ([], []) := rfl

theorem pyFloatCore_digits {ds : List Char} (hne : ds ≠ [])
    (hd : ∀ c ∈ ds, isDigitChar c = true) :
    pyFloatCore ds = some ((digitsVal ds : ℚ)) := by
  cases ds with
  | nil => exact absurd rfl hne
  | cons d t =>
    have hd0 := hd d (List.mem_cons_self d t)
    have hspan : spanDigits (d :: t) = (d :: t, []) := spanDigits_all hd
    simp only [pyFloatCore, parseSign_digit t hd0, hspan, parseFrac_nil]
    rw [if_neg (by simp)]
    norm_num [digitsVal]

theorem pyFloatCore_neg_digits {ds : List Char} (hne : ds ≠ [])
    (hd : ∀ c ∈ ds, isDigitChar c = true) :
    pyFloatCore ('-' :: ds) = some (-(digitsVal ds : ℚ)) := by
  cases ds with
  | nil => exact absurd rfl hne
  | cons d t =>
    have hspan : spanDigits (d :: t) = (d :: t, []) := spanDigits_all hd
    simp only [pyFloatCore, parseSign_dash, hspan, parseFrac_nil]
    rw [if_neg (by simp)]
    norm_num [digitsVal]

theorem pyFloat_sgn_digits (sgn ds : List Char) (hs : sgn = [] ∨ sgn = ['-'])
    (hne : ds ≠ []) (hd : ∀ c ∈ ds, isDigitChar c = true) :
    pyFloat (sgn ++ ds ++ ['\n']) = some (sgnVal sgn * (digitsVal ds : ℚ)) := by
  unfold pyFloat
  rw [stripChars_sgn_digits sgn ds hs hne hd]
  rcases hs with h | h <;> subst h
  · rw [List.nil_append, pyFloatCore_digits hne hd]
    simp [sgnVal]
  · rw [show ['-'] ++ ds = '-' :: ds from rfl, pyFloatCore_neg_digits hne hd]
    simp [sgnVal]

theorem pyInt_intCast (n : ℤ) : pyInt ((n : ℚ)) = n := by
  unfold pyInt
  by_cases h : (0 : ℚ) ≤ (n : ℚ)
  · rw [if_pos h, Int.floor_intCast]
  · rw [if_neg h, Int.ceil_intCast]

theorem toInt16_eq_self_iff (v : ℤ) :
    toInt16 v = v ↔ -32768 ≤ v ∧ v < 32768 := by
  unfold toInt16
  omega

theorem rtLoop_validated (raw : Nat → Option RawLines) (fuel n : Nat)
    (l0 : List Char) (t : RawLines) (hm : takeLast3 (stripChars l0) = yesChars) :
    rtLoop raw (fuel + 1) n (l0 :: t) = some (.ok (.validated (l0 :: t) (n - 1))) := by
  simp only [rtLoop]
  rw [if_pos hm]

theorem rtLoop_fail (raw : Nat → Option RawLines) (K : Nat) (hK : raw K = none)
    (hmid : ∀ m, 1 ≤ m → m < K → ∃ l t, raw m = some (l :: t) ∧
      ¬ takeLast3 (stripChars l) = yesChars) :
    ∀ fuel n l t, 1 ≤ n → n ≤ K → K - n < fuel →
      ¬ takeLast3 (stripChars l) = yesChars →
      rtLoop raw fuel n (l :: t) = some (.ok (.absent K)) := by
  intro fuel
  induction fuel with
  | zero =>
    intro n l t _ h2 h3 _
    omega
  | succ f ih =>
    intro n l t h1 h2 h3 hm
    simp only [rtLoop]
    rw [if_neg hm]
    by_cases hnK : n = K
    · subst hnK
      rw [hK]
    · have hlt : n < K := lt_of_le_of_ne h2 hnK
      obtain ⟨l2, t2, hr, hm2⟩ := hmid n h1 hlt
      rw [hr]
      exact ih (n + 1) l2 t2 (by omega) (by omega) (by omega) hm2

theorem rtLoop_stall (raw : Nat → Option RawLines) (K : Nat)
    (hmid : ∀ m, 1 ≤ m → m < K → ∃ l t, raw m = some (l :: t) ∧
      ¬ takeLast3 (stripChars l) = yesChars) :
    ∀ fuel n l t, 1 ≤ n → n + fuel ≤ K →
      ¬ takeLast3 (stripChars l) = yesChars →
      rtLoop raw fuel n (l :: t) = none := by
  intro fuel
  induction fuel with
  | zero =>
    intro n l t _ _ _
    rfl
  | succ f ih =>
    intro n l t h1 h2 hm
    simp only [rtLoop]
    rw [if_neg hm]
    have hlt : n < K := by omega
    obtain ⟨l2, t2, hr, hm2⟩ := hmid n h1 hlt
    rw [hr]
    exact ih (n + 1) l2 t2 (by omega) (by omega) hm2

theorem read_temp_neverYes (raw : Nat → Option RawLines) (K : Nat)
    (l0 l1 : List Char) (rest : RawLines)
    (h0 : raw 0 = some (l0 :: l1 :: rest))
    (hm : ¬ takeLast3 (stripChars l0) = yesChars)
    (hmid : ∀ m, 1 ≤ m → m < K → ∃ l t, raw m = some (l :: t) ∧
      ¬ takeLast3 (stripChars l) = yesChars)
    (hK : raw K = none) (hK1 : 1 ≤ K) :
    (∀ fuel, K ≤ fuel → read_temp raw fuel = some (.ok (.nonePair, K))) ∧
    (∀ fuel, fuel < K → read_temp raw fuel = none) := by
  constructor
  · intro fuel hf
    simp only [read_temp, h0]
    rw [if_neg (by simp)]
    rw [rtLoop_fail raw K hK hmid fuel 1 l0 (l1 :: rest) le_rfl hK1 (by omega) hm]
  · intro fuel hf
    simp only [read_temp, h0]
    rw [if_neg (by simp)]
    rw [rtLoop_stall raw K hmid fuel 1 l0 (l1 :: rest) le_rfl (by omega) hm]

theorem read_temp_valid (raw : Nat → Option RawLines) (l0 l1 : List Char)
    (rest : RawLines) (pos : Nat) (sgn ds : List Char)
    (h0 : raw 0 = some (l0 :: l1 :: rest))
    (hm : takeLast3 (stripChars l0) = yesChars)
    (hf : findSub tEqChars l1 = some pos)
    (hslice : l1.drop (pos + 2) = sgn ++ ds ++ ['\n'])
    (hs : sgn = [] ∨ sgn = ['-']) (hne : ds ≠ [])
    (hd : ∀ c ∈ ds, isDigitChar c = true) :
    ∀ fuel, 1 ≤ fuel →
      read_temp raw fuel =
        some (.ok (.temp (sgnVal sgn * (digitsVal ds : ℚ) / 1000), 0)) := by
  intro fuel hfuel
  obtain ⟨f, rfl⟩ : ∃ f, fuel = f + 1 := ⟨fuel - 1, by omega⟩
  simp only [read_temp, h0]
  rw [if_neg (by simp)]
  rw [rtLoop_validated raw f 1 l0 (l1 :: rest) hm]
  simp only [List.get?]
  rw [hf]
  dsimp only
  rw [hslice, pyFloat_sgn_digits sgn ds hs hne hd]

theorem wt_some_num_ok (beh : ModbusBehavior) (hw : beh.writeOk = true)
    (addr : ℤ) (q : ℚ) :
    write_temperature beh (some ()) addr (.num q) =
      .ok (true, some (), [.wireWrite addr (pyInt (q * 10)) 6]) := by
  simp [write_temperature, tryBody, hw]

theorem wt_some_num_fail (beh : ModbusBehavior) (hw : beh.writeOk = false)
    (addr : ℤ) (q : ℚ) :
    write_temperature beh (some ()) addr (.num q) =
      .ok (false, none, [.wireWrite addr (pyInt (q * 10)) 6]) := by
  simp [write_temperature, tryBody, hw]

theorem wt_some_tuple (beh : ModbusBehavior) (addr : ℤ) :
    write_temperature beh (some ()) addr .tuple = .ok (false, none, []) := by
  simp [write_temperature, tryBody]

theorem wt_none_connfail (beh : ModbusBehavior) (hc : beh.connectOk = false)
    (addr : ℤ) (t : TempArg) :
    write_temperature beh none addr t = .ok (false, none, [.connectAttempt false]) := by
  simp [write_temperature, connectW, hc]

theorem wt_none_conn_num_ok (beh : ModbusBehavior) (hc : beh.connectOk = true)
    (hw : beh.writeOk = true) (addr : ℤ) (q : ℚ) :
    write_temperature beh none addr (.num q) =
      .ok (true, some (), [.connectAttempt true, .wireWrite addr (pyInt (q * 10)) 6]) := by
  simp [write_temperature, connectW, tryBody, hc, hw]

theorem wt_none_conn_num_fail (beh : ModbusBehavior) (hc : beh.connectOk = true)
    (hw : beh.writeOk = false) (addr : ℤ) (q : ℚ) :
    write_temperature beh none addr (.num q) =
      .ok (false, none, [.connectAttempt true, .wireWrite addr (pyInt (q * 10)) 6]) := by
  simp [write_temperature, connectW, tryBody, hc, hw]

theorem wt_none_conn_tuple (beh : ModbusBehavior) (hc : beh.connectOk = true)
    (addr : ℤ) :
    write_temperature beh none addr .tuple = .ok (false, none, [.connectAttempt true]) := by
  simp [write_temperature, connectW, tryBody, hc]

theorem wt_ok (beh : ModbusBehavior) (st : Option Session) (addr : ℤ)
    (t : TempArg) : ∃ b st2 ev,
    write_temperature beh st addr t = .ok (b, st2, ev) := by
  cases st with
  | some s =>
    cases s
    cases t with
    | tuple => exact ⟨_, _, _, wt_some_tuple beh addr⟩
    | num q =>
      cases hw : beh.writeOk
      · exact ⟨_, _, _, wt_some_num_fail beh hw addr q⟩
      · exact ⟨_, _, _, wt_some_num_ok beh hw addr q⟩
  | none =>
    cases hc : beh.connectOk
    · exact ⟨_, _, _, wt_none_connfail beh hc addr t⟩
    · cases t with
      | tuple => exact ⟨_, _, _, wt_none_conn_tuple beh hc addr⟩
      | num q =>
        cases hw : beh.writeOk
        · exact ⟨_, _, _, wt_none_conn_num_fail beh hc hw addr q⟩
        · exact ⟨_, _, _, wt_none_conn_num_ok beh hc hw addr q⟩

theorem sensorTickWrites_ok (regs : List ℤ) (behs : Nat → ModbusBehavior) :
    ∀ temps, (∀ p ∈ temps, ∃ q, p.2 = ReadTempRet.temp q) →
      ∀ i st, ∃ st2 ev,
        sensorTickWrites regs behs i st temps = .ok (st2, ev) := by
  intro temps
  induction temps with
  | nil =>
    intro _ i st
    exact ⟨st, [], rfl⟩
  | cons p rest ih =>
    intro hall i st
    obtain ⟨sid, ret⟩ := p
    obtain ⟨q, hq⟩ := hall (sid, ret) (List.mem_cons_self _ _)
    dsimp only at hq
    subst hq
    have hrest : ∀ p ∈ rest, ∃ q, p.2 = ReadTempRet.temp q :=
      fun p hp => hall p (List.mem_cons_of_mem _ hp)
    simp only [sensorTickWrites]
    cases hreg : regs.get? i with
    | none =>
      dsimp only
      simp only [format2f]
      exact ih hrest (i + 1) st
    | some addr =>
      dsimp only
      obtain ⟨b, st2, ev, hw⟩ := wt_ok (behs i) st addr (toTempArg (.temp q))
      rw [hw]
      dsimp only
      simp only [format2f]
      obtain ⟨stf, evs, hrec⟩ := ih hrest (i + 1) st2
      rw [hrec]
      exact ⟨stf, ev ++ evs, rfl⟩

theorem wt_num_iff_success (beh : ModbusBehavior) (st : Option Session)
    (addr : ℤ) (t : TempArg) : ∃ b st2 ev,
    write_temperature beh st addr t = .ok (b, st2, ev) ∧
      (b = true ↔ (st = none → beh.connectOk = true) ∧
        beh.writeOk = true ∧ t ≠ .tuple) := by
  cases st with
  | some s =>
    cases s
    cases t with
    | tuple =>
      exact ⟨_, _, _, wt_some_tuple beh addr, by simp⟩
    | num q =>
      cases hw : beh.writeOk
      · exact ⟨_, _, _, wt_some_num_fail beh hw addr q, by simp [hw]⟩
      · exact ⟨_, _, _, wt_some_num_ok beh hw addr q, by simp [hw]⟩
  | none =>
    cases hc : beh.connectOk
    · exact ⟨_, _, _, wt_none_connfail beh hc addr t, by simp [hc]⟩
    · cases t with
      | tuple =>
        exact ⟨_, _, _, wt_none_conn_tuple beh hc addr, by simp⟩
      | num q =>
        cases hw : beh.writeOk
        · exact ⟨_, _, _, wt_none_conn_num_fail beh hc hw addr q, by simp [hc, hw]⟩
        · exact ⟨_, _, _, wt_none_conn_num_ok beh hc hw addr q, by simp [hc, hw]⟩

theorem mainLoop_no_error (sensors : List SensorId) (regs : List ℤ)
    (envRaw : Nat → SensorId → Nat → Option RawLines)
    (envBehs : Nat → Nat → ModbusBehavior) (tickFuel : Nat)
    (hsamp : ∀ t, ∃ m,
      get_all_temperatures (envRaw t) tickFuel sensors = some (.ok m) ∧
      ∀ p ∈ m, ∃ q, p.2 = ReadTempRet.temp q) :
    ∀ n t st, ∃ st2,
      mainLoop sensors regs envRaw envBehs tickFuel n t st = .running st2 := by
  intro n
  induction n with
  | zero =>
    intro t st
    exact ⟨st, rfl⟩
  | succ k ih =>
    intro t st
    obtain ⟨m, hm, hall⟩ := hsamp t
    obtain ⟨st2, ev, hw⟩ := sensorTickWrites_ok regs (envBehs t) m hall 0 st
    simp only [mainLoop, sensorTick, hm, hw]
    exact ih (t + 1) st2

/-! Claim theorems. -/

/-- C2: for every sequence of `write_temperature` calls, a call that fails
on the transport tears the session down (the `instrument` field reverts to
`None`), returns `False` and issues exactly one frame (no retry inside the
call); a call that finds the writer disconnected attempts a fresh
connection before issuing any frame; and a call whose transport write
succeeds leaves the writer connected and returns `True`. -/
theorem C2_failure_teardown_reconnect_success :
    ∀ (beh : ModbusBehavior) (addr : ℤ) (q : ℚ),
      (beh.writeOk = false →
        write_temperature beh (some ()) addr (.num q) =
          .ok (false, none, [.wireWrite addr (pyInt (q * 10)) 6])) ∧
      (beh.writeOk = true →
        write_temperature beh (some ()) addr (.num q) =
          .ok (true, some (), [.wireWrite addr (pyInt (q * 10)) 6])) ∧
      (beh.connectOk = true →
        write_temperature beh none addr (.num q) =
          .ok (beh.writeOk, (if beh.writeOk = true then some () else none),
            [.connectAttempt true, .wireWrite addr (pyInt (q * 10)) 6])) ∧
      (beh.connectOk = false →
        write_temperature beh none addr (.num q) =
          .ok (false, none, [.connectAttempt false])) := by
  intro beh addr q
  refine ⟨fun hw => wt_some_num_fail beh hw addr q,
    fun hw => wt_some_num_ok beh hw addr q, fun hc => ?_,
    fun hc => wt_none_connfail beh hc addr (.num q)⟩
  cases hw : beh.writeOk
  · simpa [hw] using wt_none_conn_num_fail beh hc hw addr q
  · simpa [hw] using wt_none_conn_num_ok beh hc hw addr q

/-- C2 witness: the three behaviours at concrete inputs. -/
theorem C2_witness :
    write_temperature ⟨true, false⟩ (some ()) 4096 (.num 20) =
      .ok (false, none, [.wireWrite 4096 (pyInt ((20 : ℚ) * 10)) 6]) ∧
    write_temperature ⟨true, true⟩ (some ()) 4096 (.num 20) =
      .ok (true, some (), [.wireWrite 4096 (pyInt ((20 : ℚ) * 10)) 6]) ∧
    write_temperature ⟨false, true⟩ none 4096 (.num 20) =
      .ok (false, none, [.connectAttempt false]) :=
  ⟨(C2_failure_teardown_reconnect_success ⟨true, false⟩ 4096 20).1 rfl,
    (C2_failure_teardown_reconnect_success ⟨true, true⟩ 4096 20).2.1 rfl,
    (C2_failure_teardown_reconnect_success ⟨false, true⟩ 4096 20).2.2.2 rfl⟩

/-- C3: evaluation at the failing input. A probe whose raw read fails gets
an entry in the mapping returned by `get_all_temperatures` — the Python
2-tuple `(None, None)` — instead of being absent as the claim states,
because `read_temp` returns that tuple (not `None`) on failure and so passes
the `is not None` filter. -/
theorem C3_failed_probe_gets_entry :
    get_all_temperatures failRaw 1 [probeA] =
      some (.ok [(probeA, .nonePair)]) ∧
    [(probeA, ReadTempRet.nonePair)] ≠ ([] : List (SensorId × ReadTempRet)) := by
  exact ⟨rfl, by simp⟩

/-- C4: evaluation at the failing input. A 200 response whose body is valid
JSON with an empty `current_condition` array makes
`get_current_temperature` raise `IndexError` to its caller: the `except`
clause of `weather_modbus.py:34` lists `KeyError, ValueError, TypeError`
but not `IndexError`. -/
theorem C4_indexError_escapes :
    get_current_temperature (.resp 200 (some emptyConditionBody)) =
      .error .indexError := rfl

/-- C9 counterexample: the writer is not lazily established. `__init__`
calls `connect()` immediately, so after construction with a healthy
transport the writer already holds a session and a connection attempt has
already happened with no write in sight — contradicting "no session held at
construction" and "a connection attempt happens only when a write attempt
finds the writer Disconnected". -/
theorem C9_counterexample :
    mkWriter behOk = (some (), [.connectAttempt true]) ∧
    (some () : Option Session) ≠ none := ⟨rfl, by simp⟩

/-- C9 amended: the writer attempts to establish the session eagerly at
construction (holding a session exactly when that attempt succeeds); a
write attempt that finds the writer disconnected re-attempts the
connection, and if establishment fails the call returns `False` and the
writer remains disconnected. -/
theorem C9_amended_eager_connect :
    (∀ beh : ModbusBehavior, mkWriter beh =
      ((if beh.connectOk then some () else none), [.connectAttempt beh.connectOk])) ∧
    (∀ beh : ModbusBehavior, beh.connectOk = false → ∀ (addr : ℤ) (t : TempArg),
      write_temperature beh none addr t = .ok (false, none, [.connectAttempt false])) :=
  ⟨fun _ => rfl, fun beh hc addr t => wt_none_connfail beh hc addr t⟩

/-- C9 witness: construction with a failing transport holds no session, and
a write attempt in that state fails and stays disconnected. -/
theorem C9_amended_witness :
    mkWriter ⟨false, true⟩ = (none, [.connectAttempt false]) ∧
    write_temperature ⟨false, true⟩ none 4096 .tuple =
      .ok (false, none, [.connectAttempt false]) := by
  constructor
  · simpa using C9_amended_eager_connect.1 ⟨false, true⟩
  · exact C9_amended_eager_connect.2 ⟨false, true⟩ rfl 4096 .tuple

/-- C10: for every register address, temperature argument and transport
behaviour, `write_temperature` returns normally — every failure path is
caught by its handlers and reported as the boolean `False`, and the result
is `True` exactly when a connection was available (or freshly established)
and the transport accepted the frame of a numeric temperature. -/
theorem C10_never_raises :
    ∀ (beh : ModbusBehavior) (st : Option Session) (addr : ℤ) (t : TempArg),
      ∃ b st2 ev, write_temperature beh st addr t = .ok (b, st2, ev) ∧
        (b = true ↔ (st = none → beh.connectOk = true) ∧
          beh.writeOk = true ∧ t ≠ .tuple) :=
  fun beh st addr t => wt_num_iff_success beh st addr t

/-- C10 witness: a normal return at a concrete input. -/
theorem C10_witness :
    ∃ b st2 ev, write_temperature behOk (some ()) 4096 .tuple =
      .ok (b, st2, ev) ∧
      (b = true ↔ ((some () : Option Session) = none → behOk.connectOk = true) ∧
        behOk.writeOk = true ∧ TempArg.tuple ≠ .tuple) :=
  C10_never_raises behOk (some ()) 4096 .tuple

/-- C6: for every raw payload whose first line ends with the success marker
(after stripping) and whose second line's first `t=` field is followed by a
well-formed integer, `read_temp` returns exactly that millidegree integer
divided by 1000, with no re-read. -/
theorem C6_valid_payload_exact (raw : Nat → Option RawLines)
    (l0 l1 : List Char) (rest : RawLines) (pos : Nat) (sgn ds : List Char)
    (h0 : raw 0 = some (l0 :: l1 :: rest))
    (hm : takeLast3 (stripChars l0) = yesChars)
    (hf : findSub tEqChars l1 = some pos)
    (hslice : l1.drop (pos + 2) = sgn ++ ds ++ ['\n'])
    (hs : sgn = [] ∨ sgn = ['-']) (hne : ds ≠ [])
    (hd : ∀ c ∈ ds, isDigitChar c = true) :
    ∀ fuel, 1 ≤ fuel →
      read_temp raw fuel =
        some (.ok (.temp (sgnVal sgn * (digitsVal ds : ℚ) / 1000), 0)) :=
  read_temp_valid raw l0 l1 rest pos sgn ds h0 hm hf hslice hs hne hd

/-- C6 witness: a valid payload carrying `t=21562` parses to 21562/1000. -/
theorem C6_witness :
    read_temp (fun _ => some [lineYes, lineT21562]) 1 =
      some (.ok (.temp (sgnVal [] * (digitsVal ("21562".data) : ℚ) / 1000), 0)) :=
  C6_valid_payload_exact (fun _ => some [lineYes, lineT21562]) lineYes lineT21562
    [] 18 [] ("21562".data) rfl (by decide) (by decide) (by decide)
    (Or.inl rfl) (by decide) (by decide) 1 le_rfl

/-- C7: for every provider that never yields the success marker and whose
raw read fails on its K-th call (K at least 1), `read_temp` keeps
re-reading, terminates with the absent result `(None, None)` after exactly
K re-reads when given at least K units of retry budget, and has not
returned yet within any smaller budget. -/
theorem C7_retry_until_provider_fails (raw : Nat → Option RawLines) (K : Nat)
    (l0 l1 : List Char) (rest : RawLines)
    (h0 : raw 0 = some (l0 :: l1 :: rest))
    (hm : ¬ takeLast3 (stripChars l0) = yesChars)
    (hmid : ∀ m, 1 ≤ m → m < K → ∃ l t, raw m = some (l :: t) ∧
      ¬ takeLast3 (stripChars l) = yesChars)
    (hK : raw K = none) (hK1 : 1 ≤ K) :
    (∀ fuel, K ≤ fuel → read_temp raw fuel = some (.ok (.nonePair, K))) ∧
    (∀ fuel, fuel < K → read_temp raw fuel = none) :=
  read_temp_neverYes raw K l0 l1 rest h0 hm hmid hK hK1

/-- C7 witness: a provider with markerless payloads that fails on its third
call (K = 2): absent after exactly 2 re-reads, no result within budget 1. -/
theorem C7_witness :
    read_temp flakyRaw 2 = some (.ok (.nonePair, 2)) ∧
    read_temp flakyRaw 1 = none := by
  have h := C7_retry_until_provider_fails flakyRaw 2 lineNo lineT21562 [] rfl
    (by decide)
    (fun m h1 h2 => by
      have hm1 : m = 1 := by omega
      subst hm1
      exact ⟨lineNo, [], rfl, by decide⟩)
    rfl (by omega)
  exact ⟨h.1 2 le_rfl, h.2 1 (by omega)⟩

/-- C1 counterexample: at celsius 5000 the connected writer hands the
transport the frame value 50000 = `int(5000 * 10)` unchanged — a value
outside the signed 16-bit range and different from `int16(50000)`; the code
applies no int16 reduction, so the claim's "always lies in the int16 range"
fails. -/
theorem C1_counterexample :
    write_temperature behOk (some ()) 4096 (.num 5000) =
      .ok (true, some (), [.wireWrite 4096 50000 6]) ∧
    ¬ (-32768 ≤ (50000 : ℤ) ∧ (50000 : ℤ) < 32768) ∧
    toInt16 50000 ≠ 50000 := by
  refine ⟨?_, by decide, by decide⟩
  rw [wt_some_num_ok behOk rfl 4096 5000]
  norm_num [pyInt]

/-- C1 amended: every frame `write_temperature` hands the transport for a
numeric celsius carries exactly `round_toward_zero(celsius * 10)` as an
unbounded integer with function code 6 and the requested address; no int16
reduction is applied, so the value equals `int16(round_toward_zero(celsius
* 10))` precisely when `round_toward_zero(celsius * 10)` already lies in
[-32768, 32767]. -/
theorem C1_amended_exact_frame_value :
    (∀ (beh : ModbusBehavior) (st : Option Session) (addr : ℤ) (q : ℚ)
      (b : Bool) (st2 : Option Session) (ev : List Event),
      write_temperature beh st addr (.num q) = .ok (b, st2, ev) →
      ∀ a v fc, Event.wireWrite a v fc ∈ ev →
        a = addr ∧ v = pyInt (q * 10) ∧ fc = 6) ∧
    (∀ q : ℚ, toInt16 (pyInt (q * 10)) = pyInt (q * 10) ↔
      -32768 ≤ pyInt (q * 10) ∧ pyInt (q * 10) < 32768) := by
  constructor
  · intro beh st addr q b st2 ev hok a v fc hmem
    cases st with
    | some s =>
      cases s
      cases hw : beh.writeOk
      · rw [wt_some_num_fail beh hw addr q] at hok
        simp only [Except.ok.injEq, Prod.mk.injEq] at hok
        obtain ⟨-, -, hev⟩ := hok
        subst hev
        simp only [List.mem_singleton, Event.wireWrite.injEq] at hmem
        exact hmem
      · rw [wt_some_num_ok beh hw addr q] at hok
        simp only [Except.ok.injEq, Prod.mk.injEq] at hok
        obtain ⟨-, -, hev⟩ := hok
        subst hev
        simp only [List.mem_singleton, Event.wireWrite.injEq] at hmem
        exact hmem
    | none =>
      cases hc : beh.connectOk
      · rw [wt_none_connfail beh hc addr (.num q)] at hok
        simp only [Except.ok.injEq, Prod.mk.injEq] at hok
        obtain ⟨-, -, hev⟩ := hok
        subst hev
        simp at hmem
      · cases hw : beh.writeOk
        · rw [wt_none_conn_num_fail beh hc hw addr q] at hok
          simp only [Except.ok.injEq, Prod.mk.injEq] at hok
          obtain ⟨-, -, hev⟩ := hok
          subst hev
          simp only [List.mem_cons, List.mem_singleton, List.not_mem_nil,
            or_false] at hmem
          rcases hmem with h | h
          · exact absurd h (by simp)
          · simp only [Event.wireWrite.injEq] at h
            exact h
        · rw [wt_none_conn_num_ok beh hc hw addr q] at hok
          simp only [Except.ok.injEq, Prod.mk.injEq] at hok
          obtain ⟨-, -, hev⟩ := hok
          subst hev
          simp only [List.mem_cons, List.mem_singleton, List.not_mem_nil,
            or_false] at hmem
          rcases hmem with h | h
          · exact absurd h (by simp)
          · simp only [Event.wireWrite.injEq] at h
            exact h
  · intro q
    exact toInt16_eq_self_iff _

/-- C1 amended witness: the frame of a successful write at celsius 20
carries exactly the truncated value, and the int16 equivalence at that
value. -/
theorem C1_amended_witness :
    ((4096 : ℤ) = 4096 ∧ pyInt ((20 : ℚ) * 10) = pyInt ((20 : ℚ) * 10) ∧
      (6 : ℕ) = 6) ∧
    (toInt16 (pyInt ((20 : ℚ) * 10)) = pyInt ((20 : ℚ) * 10) ↔
      -32768 ≤ pyInt ((20 : ℚ) * 10) ∧ pyInt ((20 : ℚ) * 10) < 32768) :=
  ⟨C1_amended_exact_frame_value.1 behOk (some ()) 4096 20 true (some ())
      [.wireWrite 4096 (pyInt ((20 : ℚ) * 10)) 6]
      (wt_some_num_ok behOk rfl 4096 20) 4096 (pyInt ((20 : ℚ) * 10)) 6
      (List.mem_singleton.mpr rfl),
    C1_amended_exact_frame_value.2 20⟩

/-- C5 counterexample: one tick in which a probe's payload has a valid CRC
marker but a malformed `t=` field raises `ValueError` out of the tick; the
handler wrapping the whole loop catches it and the loop terminates — a
single bad cycle ends the process, refuting the claim. -/
theorem C5_counterexample :
    mainLoop [probeA] sensorRegisters (fun _ => badFieldRaw)
      (fun _ _ => behOk) 1 1 0 (some ()) = .errorExit .valueError := rfl

/-- C5 amended: only per-write transport failures are absorbed at the tick
boundary — whenever every tick's sampling phase returns without an
exception and yields a float reading for every listed probe, the loop
completes all its ticks under any transport behaviour (first conjunct).
Per-sensor sampling failures, by contrast, escape the tick and end the
loop: a malformed `t=` field as `ValueError` (the counterexample), and a
failed raw read as `TypeError`, because the per-sensor status print
applies the float format `{temp_c:.2f}` to that probe's `(None, None)`
entry (second conjunct: one probe whose raw read fails ends the loop on
its first tick this way, after the write for that index returned
`False`). -/
theorem C5_amended_absorbed :
    (∀ (sensors : List SensorId) (regs : List ℤ)
      (envRaw : Nat → SensorId → Nat → Option RawLines)
      (envBehs : Nat → Nat → ModbusBehavior) (tickFuel : Nat),
      (∀ t, ∃ m,
        get_all_temperatures (envRaw t) tickFuel sensors = some (.ok m) ∧
        ∀ p ∈ m, ∃ q, p.2 = ReadTempRet.temp q) →
      ∀ n t st, ∃ st2,
        mainLoop sensors regs envRaw envBehs tickFuel n t st = .running st2) ∧
    mainLoop [probeA] sensorRegisters (fun _ => failRaw) (fun _ _ => behOk)
      1 1 0 (some ()) = .errorExit .typeError := by
  constructor
  · intro sensors regs envRaw envBehs tickFuel hsamp
    exact mainLoop_no_error sensors regs envRaw envBehs tickFuel hsamp
  · rfl

theorem pyInt_posSample : pyInt (((21562 : ℚ) / 1000) * 10) = 215 := by
  norm_num [pyInt]

theorem pyInt_negSample : pyInt (((-5000 : ℚ) / 1000) * 10) = -50 := by
  rw [show ((-5000 : ℚ) / 1000) * 10 = ((-50 : ℤ) : ℚ) from by norm_num]
  exact pyInt_intCast (-50)

theorem scenario_read_A :
    read_temp (scenarioRaw probeA) 1 =
      some (.ok (.temp ((21562 : ℚ) / 1000), 0)) := by
  have h := read_temp_valid (scenarioRaw probeA) lineYes lineT21562 [] 18 []
    ("21562".data) (by decide) (by decide) (by decide) (by decide)
    (Or.inl rfl) (by decide) (by decide) 1 le_rfl
  rw [h]
  norm_num [sgnVal, show digitsVal ("21562".data) = 21562 from by decide]

theorem scenario_read_B :
    read_temp (scenarioRaw probeB) 1 =
      some (.ok (.temp ((-5000 : ℚ) / 1000), 0)) := by
  have h := read_temp_valid (scenarioRaw probeB) lineYes lineTNeg5000 [] 18
    ['-'] ("5000".data) (by decide) (by decide) (by decide) (by decide)
    (Or.inr rfl) (by decide) (by decide) 1 le_rfl
  rw [h]
  norm_num [sgnVal, show digitsVal ("5000".data) = 5000 from by decide]

theorem scenario_get_all :
    get_all_temperatures scenarioRaw 1 [probeA, probeB] =
      some (.ok [(probeA, .temp ((21562 : ℚ) / 1000)),
        (probeB, .temp ((-5000 : ℚ) / 1000))]) := by
  simp only [get_all_temperatures, scenario_read_A, scenario_read_B, retIsNone]
  simp

/-- C5 amended witness: two healthy probes sampled over two ticks — every
reading is a float — and both ticks complete under a healthy transport. -/
theorem C5_amended_witness :
    ∃ st2, mainLoop [probeA, probeB] sensorRegisters (fun _ => scenarioRaw)
      (fun _ _ => behOk) 1 2 0 (some ()) = .running st2 :=
  C5_amended_absorbed.1 [probeA, probeB] sensorRegisters (fun _ => scenarioRaw)
    (fun _ _ => behOk) 1
    (fun _ => ⟨[(probeA, .temp ((21562 : ℚ) / 1000)),
        (probeB, .temp ((-5000 : ℚ) / 1000))], scenario_get_all, by
      intro p hp
      rcases List.mem_cons.mp hp with h | h
      · subst h
        exact ⟨_, rfl⟩
      · rw [List.mem_singleton] at h
        subst h
        exact ⟨_, rfl⟩⟩)
    2 0 (some ())

theorem scenario_writes :
    sensorTickWrites sensorRegisters (fun _ => behOk) 0 (some ())
      [(probeA, .temp ((21562 : ℚ) / 1000)),
        (probeB, .temp ((-5000 : ℚ) / 1000))] =
      .ok (some (), [.wireWrite 4096 215 6, .wireWrite 4097 (-50) 6]) := by
  have h1 : write_temperature behOk (some ()) 4096 (.num ((21562 : ℚ) / 1000)) =
      .ok (true, some (), [.wireWrite 4096 215 6]) := by
    rw [wt_some_num_ok behOk rfl, pyInt_posSample]
  have h2 : write_temperature behOk (some ()) 4097 (.num ((-5000 : ℚ) / 1000)) =
      .ok (true, some (), [.wireWrite 4097 (-50) 6]) := by
    rw [wt_some_num_ok behOk rfl, pyInt_negSample]
  have hg0 : sensorRegisters[0]? = some (4096 : ℤ) := rfl
  have hg1 : sensorRegisters[1]? = some (4097 : ℤ) := rfl
  simp [sensorTickWrites, toTempArg, format2f, hg0, hg1, h1, h2]

theorem scenario_tick_eval :
    sensorTick [probeA, probeB] sensorRegisters scenarioRaw (fun _ => behOk)
      1 (some ()) =
      some (.ok (some (), [.wireWrite 4096 215 6, .wireWrite 4097 (-50) 6])) := by
  simp only [sensorTick, scenario_get_all]
  rw [scenario_writes]

/-- C8 counterexample: in the end-to-end scenario — probes reading 21.562
and -5.0 celsius, register map 0 to 4096 and 1 to 4097 — the only frames
one cycle produces carry 215 to register 4096 and -50 to 4097: Python's
`int()` truncation gives `int(21.562 * 10) = 215`, not the claimed 216. -/
theorem C8_counterexample :
    sensorTick [probeA, probeB] sensorRegisters scenarioRaw (fun _ => behOk)
      1 (some ()) =
      some (.ok (some (), [.wireWrite 4096 215 6, .wireWrite 4097 (-50) 6])) ∧
    (215 : ℤ) ≠ 216 :=
  ⟨scenario_tick_eval, by decide⟩

/-- C8 amended: in the end-to-end scenario, one cycle writes wire value 215
to register 4096 and wire value -50 to register 4097. -/
theorem C8_amended_write_values :
    sensorTick [probeA, probeB] sensorRegisters scenarioRaw (fun _ => behOk)
      1 (some ()) =
      some (.ok (some (), [.wireWrite 4096 215 6, .wireWrite 4097 (-50) 6])) :=
  scenario_tick_eval

end Bridge
